import Mathlib

/-!
Shallow embedding of the provisioning HTTP client of
`packages/create-catalyst/src/utils/https.ts`, together with the
device-code polling loop described by the design document.

Modelling conventions:
* JSON values are the inductive `Json`; `JSON.stringify` of an object
  literal is modelled by carrying the structured `Json` value in the
  request body.
* A JavaScript object literal used as a header map is modelled as a
  `List (String × String)` of assignments in literal order; spread
  semantics (`{...a, k: v}`) means a later assignment to the same key
  wins, captured by the lookup `jsGet`.
* `fetch` is a pure `Transport : Request → Response`; the `Response`
  carries the HTTP status, status text and the already-decoded JSON body.
* `process.exit(1)` after a `console.error` message is the outcome
  `Outcome.exited 1 msg`; a thrown `Error` before any fetch is
  `Outcome.configError`; `chalk` colouring is dropped (it only decorates
  the terminal string).
* JavaScript string truthiness (`!s`) is `s = ""`.
-/

namespace Catalyst

/-- JSON values, as produced by `response.json()` / `JSON.stringify`. -/
inductive Json where
  | null
  | bool (b : Bool)
  | num (n : Int)
  | str (s : String)
  | arr (elems : List Json)
  | obj (fields : List (String × Json))

/-- Field lookup on a JSON object (first binding wins; the test payloads
used here never contain duplicate keys). Non-objects have no fields. -/
def Json.getField (j : Json) (k : String) : Option Json :=
  match j with
  | .obj fields => (fields.find? (fun p => p.1 == k)).map (fun p => p.2)
  | _ => none

/-- Extract a JSON string. -/
def Json.asString : Json → Option String
  | .str s => some s
  | _ => none

/-- Extract a JSON number. -/
def Json.asNumber : Json → Option Int
  | .num n => some n
  | _ => none

/-- Extract a JSON boolean. -/
def Json.asBool : Json → Option Bool
  | .bool b => some b
  | _ => none

/-- Header maps: a JS object literal as an ordered list of assignments. -/
abbrev Headers := List (String × String)

/-- Lookup in a JS object literal: the last assignment to a key wins
(object spread semantics). -/
def jsGet (o : Headers) (k : String) : Option String :=
  (o.reverse.find? (fun p => p.1 == k)).map (fun p => p.2)

/-- An HTTP request as handed to `fetch`. -/
structure Request where
  url : String
  method : String
  headers : Headers
  body : Option Json

/-- The `RequestInit` options object (`opts`) accepted by the low-level
`auth` / `api` / `sampleDataApi` methods: optional `method`, `headers`
(default `{}`), and `body`. -/
structure RequestInit where
  method : Option String := none
  headers : Headers := []
  body : Option Json := none

/-- An HTTP response: status, status text and decoded JSON body. -/
structure Response where
  status : Nat
  statusText : String
  body : Json

/-- The `Response.ok` of the fetch API: status in the range 200–299. -/
def Response.ok (r : Response) : Bool :=
  decide (200 ≤ r.status) && decide (r.status ≤ 299)

/-- The network transport underlying `fetch`, as a pure function. -/
abbrev Transport := Request → Response

/-- Modelled from the spec: `getCLIUserAgent` (utils/user-agent.ts is not
under src/) returns a fixed tool-identifying `User-Agent` string (§6). -/
def getCLIUserAgent : String := "catalyst-cli"

/-- The `Https` class instance fields (all credential fields are plain
strings after construction). -/
structure Https where
  bigCommerceApiUrl : String
  bigCommerceAuthUrl : String
  sampleDataApiUrl : String
  storeHash : String
  accessToken : String
  userAgent : String

/-- The `HttpsConfig` constructor argument: every field optional. -/
structure HttpsConfig where
  bigCommerceApiUrl : Option String := none
  bigCommerceAuthUrl : Option String := none
  sampleDataApiUrl : Option String := none
  storeHash : Option String := none
  accessToken : Option String := none

/-- The `Https` constructor: each missing field defaults to `''`
(`?? ''`), and `userAgent` is set from `getCLIUserAgent()`. -/
def Https.ofConfig (c : HttpsConfig) : Https where
  bigCommerceApiUrl := c.bigCommerceApiUrl.getD ""
  bigCommerceAuthUrl := c.bigCommerceAuthUrl.getD ""
  sampleDataApiUrl := c.sampleDataApiUrl.getD ""
  storeHash := c.storeHash.getD ""
  accessToken := c.accessToken.getD ""
  userAgent := getCLIUserAgent

/-- The `DEVICE_OAUTH_CLIENT_ID` of the `Https` class. -/
def DEVICE_OAUTH_CLIENT_ID : String := "acse0vvawm9r1n0evag4b8e1ea1fo90"

/-- The `MAX_EPOC_EXPIRES_AT` of the `Https` class. -/
def MAX_EPOC_EXPIRES_AT : Int := 2147483647

/-- Result of a low-level client call: either the pre-I/O thrown
configuration error, or the issued request together with its response. -/
inductive LowResult where
  | config (msg : String)
  | done (req : Request) (resp : Response)

/-- The requests a low-level call handed to the transport. -/
def LowResult.requests : LowResult → List Request
  | .config _ => []
  | .done req _ => [req]

/-- The request built by `Https.auth`: URL `authUrl + path`, method
`POST` unless overridden by `opts` (the `...rest` spread follows
`method: 'POST'`), caller headers spread before the fixed
`Accept` / `Content-Type` / `User-Agent` headers. -/
def Https.authRequest (h : Https) (path : String) (opts : RequestInit) : Request where
  url := h.bigCommerceAuthUrl ++ path
  method := opts.method.getD "POST"
  headers := opts.headers ++
    [("Accept", "application/json"),
     ("Content-Type", "application/json"),
     ("User-Agent", h.userAgent)]
  body := opts.body

/-- Method `Https.auth`: throws unless `bigCommerceAuthUrl` is truthy, then
fetches `authUrl + path`. -/
def Https.auth (h : Https) (t : Transport) (path : String) (opts : RequestInit) : LowResult :=
  if h.bigCommerceAuthUrl = "" then
    .config "bigCommerceAuthUrl is required to make API requests"
  else
    .done (h.authRequest path opts) (t (h.authRequest path opts))

/-- The request built by `Https.api`: URL
`apiUrl + /stores/ + storeHash + path`, method from `opts` (fetch
defaults to GET), caller headers spread before the fixed
`Accept` / `X-Auth-Token` / `User-Agent` headers. -/
def Https.apiRequest (h : Https) (path : String) (opts : RequestInit) : Request where
  url := h.bigCommerceApiUrl ++ "/stores/" ++ h.storeHash ++ path
  method := opts.method.getD "GET"
  headers := opts.headers ++
    [("Accept", "application/json"),
     ("X-Auth-Token", h.accessToken),
     ("User-Agent", h.userAgent)]
  body := opts.body

/-- Method `Https.api`: throws unless `bigCommerceApiUrl`, `storeHash` and
`accessToken` are all truthy, then fetches
`apiUrl + /stores/ + storeHash + path`. -/
def Https.api (h : Https) (t : Transport) (path : String) (opts : RequestInit) : LowResult :=
  if h.bigCommerceApiUrl = "" ∨ h.storeHash = "" ∨ h.accessToken = "" then
    .config "bigCommerceApiUrl, storeHash, and accessToken are required to make API requests"
  else
    .done (h.apiRequest path opts) (t (h.apiRequest path opts))

/-- The request built by `Https.sampleDataApi`: URL
`sampleDataApiUrl + /stores/ + storeHash + path`, method `POST` unless
overridden by `opts`, caller headers spread before the fixed
`Accept` / `Content-Type` / `X-Auth-Token` / `User-Agent` headers. -/
def Https.sampleDataApiRequest (h : Https) (path : String) (opts : RequestInit) : Request where
  url := h.sampleDataApiUrl ++ "/stores/" ++ h.storeHash ++ path
  method := opts.method.getD "POST"
  headers := opts.headers ++
    [("Accept", "application/json"),
     ("Content-Type", "application/json"),
     ("X-Auth-Token", h.accessToken),
     ("User-Agent", h.userAgent)]
  body := opts.body

/-- Method `Https.sampleDataApi`: throws unless `sampleDataApiUrl`, `storeHash`
and `accessToken` are all truthy. -/
def Https.sampleDataApi (h : Https) (t : Transport) (path : String) (opts : RequestInit) :
    LowResult :=
  if h.sampleDataApiUrl = "" ∨ h.storeHash = "" ∨ h.accessToken = "" then
    .config "sampleDataApiUrl, storeHash, and accessToken are required to make API requests"
  else
    .done (h.sampleDataApiRequest path opts) (t (h.sampleDataApiRequest path opts))

/-! ### Response validation

The schemas below embed the zod schemas declared in `https.ts`.
The `parse` wrapper itself is modelled from the spec: §4.1
ResponseValidator (`utils/parse.ts` is not under src/) — it returns the
typed value on conformance and a structured validation error otherwise.
zod objects ignore unknown keys. -/

/-- Require field `k` of `j` to exist (`z.object` required field). -/
def reqField (j : Json) (k : String) : Except String Json :=
  match j.getField k with
  | some v => .ok v
  | none => .error (k ++ ": required")

/-- Require field `k` of `j` to be a string (`z.string()`). -/
def reqStr (j : Json) (k : String) : Except String String :=
  match (j.getField k).bind Json.asString with
  | some s => .ok s
  | none => .error (k ++ ": expected string")

/-- Require field `k` of `j` to be a number (`z.number()`). -/
def reqNum (j : Json) (k : String) : Except String Int :=
  match (j.getField k).bind Json.asNumber with
  | some n => .ok n
  | none => .error (k ++ ": expected number")

/-- Require field `k` of `j` to be a boolean (`z.boolean()`). -/
def reqBool (j : Json) (k : String) : Except String Bool :=
  match (j.getField k).bind Json.asBool with
  | some b => .ok b
  | none => .error (k ++ ": expected boolean")

/-- Helper for the URL shape check: scan the characters for the
separator `://` followed by a non-empty remainder. -/
def schemeSepAfter : List Char → Bool
  | ':' :: '/' :: '/' :: rest => !rest.isEmpty
  | _ :: rest => schemeSepAfter rest
  | [] => false

/-- Modelled approximation of zod's `z.string().url()`: a non-empty
scheme followed by `://` and a non-empty remainder. -/
def zodUrlOk (s : String) : Bool :=
  match s.data with
  | [] => false
  | ':' :: _ => false
  | _ :: rest => schemeSepAfter rest

/-- The `DeviceCodeSchema` of `getDeviceCode`. -/
structure DeviceCode where
  device_code : String
  user_code : String
  verification_uri : String
  expires_in : Int
  interval : Int

/-- Validate a body against `DeviceCodeSchema`. -/
def parseDeviceCode (j : Json) : Except String DeviceCode := do
  let dc ← reqStr j "device_code"
  let uc ← reqStr j "user_code"
  let vu ← reqStr j "verification_uri"
  let ei ← reqNum j "expires_in"
  let iv ← reqNum j "interval"
  return ⟨dc, uc, vu, ei, iv⟩

/-- The `DeviceCodeSuccessSchema` of `checkDeviceCode` (the token grant). -/
structure TokenGrant where
  access_token : String
  store_hash : String
  context : String
  api_uri : String

/-- Validate a body against `DeviceCodeSuccessSchema`
(`api_uri` is `z.string().url()`). -/
def parseTokenGrant (j : Json) : Except String TokenGrant := do
  let tok ← reqStr j "access_token"
  let sh ← reqStr j "store_hash"
  let cx ← reqStr j "context"
  let au ← reqStr j "api_uri"
  if zodUrlOk au then return ⟨tok, sh, cx, au⟩
  else .error "api_uri: invalid url"

/-- The `storefront_limits` of `BigCommerceStoreInfo`. -/
structure StorefrontLimits where
  active : Int
  total_including_inactive : Int

/-- The `BigCommerceStoreInfo`: `{features: {storefront_limits: {...}}}`. -/
structure BigCommerceStoreInfo where
  storefront_limits : StorefrontLimits

/-- Validate a body against `BigCommerceStoreInfo`. -/
def parseStoreInfo (j : Json) : Except String BigCommerceStoreInfo := do
  let f ← reqField j "features"
  let sl ← reqField f "storefront_limits"
  let a ← reqNum sl "active"
  let tot ← reqNum sl "total_including_inactive"
  return ⟨⟨a, tot⟩⟩

/-- One element of the `data` array of the channels response. -/
structure ChannelRecord where
  id : Int
  name : String
  status : String
  platform : String

/-- Validate one channel record. -/
def parseChannelRecord (j : Json) : Except String ChannelRecord := do
  let i ← reqNum j "id"
  let n ← reqStr j "name"
  let st ← reqStr j "status"
  let pf ← reqStr j "platform"
  return ⟨i, n, st, pf⟩

/-- The `BigCommerceChannelsV3ResponseSchema`: `{data: [...], meta: {}}`. -/
structure BigCommerceChannelsV3Response where
  data : List ChannelRecord

/-- Validate a body against `BigCommerceChannelsV3ResponseSchema`
(`meta` must be present and an object). -/
def parseChannels (j : Json) : Except String BigCommerceChannelsV3Response := do
  let d ← reqField j "data"
  let elems ← match d with
    | .arr xs => Except.ok xs
    | _ => Except.error "data: expected array"
  let recs ← elems.mapM parseChannelRecord
  let m ← reqField j "meta"
  match m with
  | .obj _ => return ⟨recs⟩
  | _ => .error "meta: expected object"

/-- The `data` of `BigCommerceStorefrontTokenSchema`. -/
structure StorefrontTokenData where
  token : String

/-- The `BigCommerceStorefrontTokenSchema`: `{data: {token}}`. -/
structure BigCommerceStorefrontToken where
  data : StorefrontTokenData

/-- Validate a body against `BigCommerceStorefrontTokenSchema`. -/
def parseStorefrontToken (j : Json) : Except String BigCommerceStorefrontToken := do
  let d ← reqField j "data"
  let tok ← reqStr d "token"
  return ⟨⟨tok⟩⟩

/-- The `data` of `CheckEligibilitySchema`. -/
structure EligibilityData where
  eligible : Bool
  message : String

/-- The `CheckEligibilitySchema`: `{data: {eligible, message}}`. -/
structure CheckEligibility where
  data : EligibilityData

/-- Validate a body against `CheckEligibilitySchema`. -/
def parseEligibility (j : Json) : Except String CheckEligibility := do
  let d ← reqField j "data"
  let e ← reqBool d "eligible"
  let msg ← reqStr d "message"
  return ⟨⟨e, msg⟩⟩

/-- The `data` of `SampleDataChannelCreateSchema`
(`name` is `z.string().min(1)`). -/
structure SampleChannelData where
  id : Int
  name : String
  storefront_api_token : String

/-- The `SampleDataChannelCreateSchema`: `{data: {id, name, storefront_api_token}}`. -/
structure SampleDataChannelCreate where
  data : SampleChannelData

/-- Validate a body against `SampleDataChannelCreateSchema`; the `name`
field must be a string of length at least 1 (`z.string().min(1)`). -/
def parseChannelCreate (j : Json) : Except String SampleDataChannelCreate :=
  match reqField j "data" with
  | .error m => .error m
  | .ok d =>
    match reqNum d "id" with
    | .error m => .error m
    | .ok i =>
      match reqStr d "name" with
      | .error m => .error m
      | .ok n =>
        if n = "" then .error "data.name: string must contain at least 1 character"
        else
          match reqStr d "storefront_api_token" with
          | .error m => .error m
          | .ok tok => .ok ⟨⟨i, n, tok⟩⟩

/-! ### Outcomes of the high-level methods -/

/-- Observable outcome of a high-level `Https` method.
`configError` is the `Error` thrown before any fetch; `authPending` is
the recoverable `Device code not yet verified` error; `validationError`
is a failed schema validation; `exited code msg` is `console.error(msg)`
followed by `process.exit(code)`. `httpError` is the §4.2/§7
`HttpError{status, statusText, endpoint}` condition of the design
document — stated here so claims about it can be formalised. -/
inductive Outcome (α : Type) where
  | ok (a : α)
  | configError (msg : String)
  | authPending (msg : String)
  | validationError (msg : String)
  | httpError (status : Nat) (statusText : String) (endpoint : String)
  | exited (code : Nat) (msg : String)

/-- Discriminator for `Outcome.httpError`. -/
def Outcome.isHttpError : Outcome α → Bool
  | .httpError _ _ _ => true
  | _ => false

/-- Discriminator for `Outcome.validationError`. -/
def Outcome.isValidationError : Outcome α → Bool
  | .validationError _ => true
  | _ => false

/-- Discriminator for `Outcome.exited`. -/
def Outcome.isExited : Outcome α → Bool
  | .exited _ _ => true
  | _ => false

/-- A step halts the sequence unless it completed normally. -/
def Outcome.halts : Outcome α → Bool
  | .ok _ => false
  | _ => true

/-- Result of running a high-level method against a transport: its
outcome, the requests it issued, and the warnings it logged. -/
structure HiResult (α : Type) where
  outcome : Outcome α
  requests : List Request
  warnings : List String

/-! ### High-level methods of the `Https` class -/

/-- The hardcoded OAuth scope list of `getDeviceCode`, space-joined. -/
def deviceCodeScopes : String :=
  String.intercalate " "
    ["store_channel_settings", "store_sites", "store_storefront_api",
     "store_v2_content", "store_v2_information", "store_v2_products",
     "store_cart"]

/-- The `opts` passed to `auth` by `getDeviceCode`. -/
def deviceCodeInit : RequestInit where
  body := some (.obj
    [("scopes", .str deviceCodeScopes),
     ("client_id", .str DEVICE_OAUTH_CLIENT_ID)])

/-- The request `getDeviceCode` issues. -/
def Https.deviceCodeRequest (h : Https) : Request :=
  h.authRequest "/device/token" deviceCodeInit

/-- Method `Https.getDeviceCode`: POST `/device/token` with the fixed scopes
and client id; `process.exit(1)` on non-2xx; otherwise validate the body
against `DeviceCodeSchema`. -/
def Https.getDeviceCode (h : Https) (t : Transport) : HiResult DeviceCode :=
  match h.auth t "/device/token" deviceCodeInit with
  | .config m => ⟨.configError m, [], []⟩
  | .done req resp =>
    if resp.ok then
      match parseDeviceCode resp.body with
      | .ok v => ⟨.ok v, [req], []⟩
      | .error m => ⟨.validationError m, [req], []⟩
    else
      ⟨.exited 1 ("\nPOST /device/token failed: " ++ toString resp.status ++ " " ++
          resp.statusText ++ "\n"), [req], []⟩

/-- The `opts` passed to `auth` by `checkDeviceCode`. -/
def checkDeviceCodeInit (deviceCode : String) : RequestInit where
  body := some (.obj
    [("device_code", .str deviceCode),
     ("client_id", .str DEVICE_OAUTH_CLIENT_ID)])

/-- The request `checkDeviceCode` issues. -/
def Https.checkDeviceCodeRequest (h : Https) (deviceCode : String) : Request :=
  h.authRequest "/device/token" (checkDeviceCodeInit deviceCode)

/-- Method `Https.checkDeviceCode`: POST `/device/token` with the device code;
on a status other than exactly 200, throw the recoverable
`Device code not yet verified` error; on 200, validate the body against
`DeviceCodeSuccessSchema`. -/
def Https.checkDeviceCode (h : Https) (t : Transport) (deviceCode : String) :
    HiResult TokenGrant :=
  match h.auth t "/device/token" (checkDeviceCodeInit deviceCode) with
  | .config m => ⟨.configError m, [], []⟩
  | .done req resp =>
    if resp.status = 200 then
      match parseTokenGrant resp.body with
      | .ok v => ⟨.ok v, [req], []⟩
      | .error m => ⟨.validationError m, [req], []⟩
    else
      ⟨.authPending "Device code not yet verified", [req], []⟩

/-- The request `storeInformation` issues. -/
def Https.storeInfoRequest (h : Https) : Request :=
  h.apiRequest "/v2/store" {}

/-- Method `Https.storeInformation`: GET `/v2/store`; `process.exit(1)` on
non-2xx; otherwise validate against `BigCommerceStoreInfo`. -/
def Https.storeInformation (h : Https) (t : Transport) : HiResult BigCommerceStoreInfo :=
  match h.api t "/v2/store" {} with
  | .config m => ⟨.configError m, [], []⟩
  | .done req resp =>
    if resp.ok then
      match parseStoreInfo resp.body with
      | .ok v => ⟨.ok v, [req], []⟩
      | .error m => ⟨.validationError m, [req], []⟩
    else
      ⟨.exited 1 ("\nGET /v2/store failed: " ++ toString resp.status ++ " " ++
          resp.statusText ++ "\n"), [req], []⟩

/-- The request `channels` issues (the source defaults `query` to `''`). -/
def Https.channelsRequest (h : Https) (query : String) : Request :=
  h.apiRequest ("/v3/channels" ++ query) {}

/-- Method `Https.channels`: GET `/v3/channels{query}`; `process.exit(1)` on
non-2xx; otherwise validate against `BigCommerceChannelsV3ResponseSchema`. -/
def Https.channels (h : Https) (t : Transport) (query : String) :
    HiResult BigCommerceChannelsV3Response :=
  match h.api t ("/v3/channels" ++ query) {} with
  | .config m => ⟨.configError m, [], []⟩
  | .done req resp =>
    if resp.ok then
      match parseChannels resp.body with
      | .ok v => ⟨.ok v, [req], []⟩
      | .error m => ⟨.validationError m, [req], []⟩
    else
      ⟨.exited 1 ("\nGET /v3/channels failed: " ++ toString resp.status ++ " " ++
          resp.statusText ++ "\n"), [req], []⟩

/-- The protected app sections `createChannelMenus` sends. -/
def menuSections : List String :=
  ["storefront_settings", "currencies", "domains", "notifications", "social"]

/-- The `opts` passed to `api` by `createChannelMenus`. -/
def channelMenusInit : RequestInit where
  method := some "POST"
  headers := [("Content-Type", "application/json")]
  body := some (.obj
    [("bigcommerce_protected_app_sections", .arr (menuSections.map .str))])

/-- The request `createChannelMenus` issues. -/
def Https.channelMenusRequest (h : Https) (channelId : Int) : Request :=
  h.apiRequest ("/v3/channels/" ++ toString channelId ++ "/channel-menus") channelMenusInit

/-- The warning `createChannelMenus` logs on a non-2xx response. -/
def channelMenusWarning (status : Nat) (statusText : String) : String :=
  "\nFailed to create channel menus: " ++ toString status ++ " " ++ statusText ++
    ". You may want to create these later: https://developer.bigcommerce.com/docs/rest-management/channels/menus#create-channel-menus\n"

/-- Method `Https.createChannelMenus`: POST
`/v3/channels/{id}/channel-menus`; on non-2xx it only logs a warning
(`console.warn`) and returns normally; the body is never validated. -/
def Https.createChannelMenus (h : Https) (t : Transport) (channelId : Int) : HiResult Unit :=
  match h.api t ("/v3/channels/" ++ toString channelId ++ "/channel-menus") channelMenusInit with
  | .config m => ⟨.configError m, [], []⟩
  | .done req resp =>
    if resp.ok then ⟨.ok (), [req], []⟩
    else ⟨.ok (), [req], [channelMenusWarning resp.status resp.statusText]⟩

/-- The `opts` passed to `api` by `storefrontToken`. -/
def storefrontTokenInit : RequestInit where
  method := some "POST"
  headers := [("Content-Type", "application/json")]
  body := some (.obj
    [("expires_at", .num MAX_EPOC_EXPIRES_AT),
     ("channel_ids", .arr [])])

/-- The request `storefrontToken` issues. -/
def Https.storefrontTokenRequest (h : Https) : Request :=
  h.apiRequest "/v3/storefront/api-token" storefrontTokenInit

/-- Method `Https.storefrontToken`: POST `/v3/storefront/api-token` with the
far-future expiry and empty channel list; `process.exit(1)` on non-2xx;
otherwise validate against `BigCommerceStorefrontTokenSchema`. -/
def Https.storefrontToken (h : Https) (t : Transport) : HiResult BigCommerceStorefrontToken :=
  match h.api t "/v3/storefront/api-token" storefrontTokenInit with
  | .config m => ⟨.configError m, [], []⟩
  | .done req resp =>
    if resp.ok then
      match parseStorefrontToken resp.body with
      | .ok v => ⟨.ok v, [req], []⟩
      | .error m => ⟨.validationError m, [req], []⟩
    else
      ⟨.exited 1 ("\nPOST /v3/storefront/api-token failed: " ++ toString resp.status ++ " " ++
          resp.statusText ++ "\n"), [req], []⟩

/-- The request `checkEligibility` issues (method overridden to GET). -/
def Https.eligibilityRequest (h : Https) : Request :=
  h.sampleDataApiRequest "/v3/channels/catalyst/eligibility" { method := some "GET" }

/-- Method `Https.checkEligibility`: GET `/v3/channels/catalyst/eligibility`;
`process.exit(1)` on non-2xx; otherwise validate against
`CheckEligibilitySchema`. -/
def Https.checkEligibility (h : Https) (t : Transport) : HiResult CheckEligibility :=
  match h.sampleDataApi t "/v3/channels/catalyst/eligibility" { method := some "GET" } with
  | .config m => ⟨.configError m, [], []⟩
  | .done req resp =>
    if resp.ok then
      match parseEligibility resp.body with
      | .ok v => ⟨.ok v, [req], []⟩
      | .error m => ⟨.validationError m, [req], []⟩
    else
      ⟨.exited 1 ("\nGET /v3/channels/catalyst/eligibility failed: " ++ toString resp.status ++
          " " ++ resp.statusText ++ "\n"), [req], []⟩

/-- The `opts` passed to `sampleDataApi` by `createChannel`. -/
def createChannelInit (channelName : String) : RequestInit where
  body := some (.obj
    [("name", .str channelName),
     ("tokenType", .str "normal")])

/-- The request `createChannel` issues. -/
def Https.createChannelRequest (h : Https) (channelName : String) : Request :=
  h.sampleDataApiRequest "/v3/channels/catalyst" (createChannelInit channelName)

/-- Method `Https.createChannel`: POST `/v3/channels/catalyst` with
`{name, tokenType: 'normal'}`; `process.exit(1)` on non-2xx; otherwise
validate against `SampleDataChannelCreateSchema`. -/
def Https.createChannel (h : Https) (t : Transport) (channelName : String) :
    HiResult SampleDataChannelCreate :=
  match h.sampleDataApi t "/v3/channels/catalyst" (createChannelInit channelName) with
  | .config m => ⟨.configError m, [], []⟩
  | .done req resp =>
    if resp.ok then
      match parseChannelCreate resp.body with
      | .ok v => ⟨.ok v, [req], []⟩
      | .error m => ⟨.validationError m, [req], []⟩
    else
      ⟨.exited 1 ("\nPOST /v3/channels/catalyst failed: " ++ toString resp.status ++ " " ++
          resp.statusText ++ "\n"), [req], []⟩

/-! ### The device-code polling loop and orchestrator sequencing

These two definitions are modelled from the spec: the polling loop
(§4.3 `pollForToken`) and the ProvisioningOrchestrator step sequencing
(§4.4) are code of this repository that is not under src/ (only the
`Https` client they call is). -/

/-- Terminal outcome of the polling loop: either the grant body of the
first 200 response (`Authorized`), or the `Expired` state failing with
`AuthTimeoutError`. -/
inductive PollOutcome where
  | authorized (body : Json)
  | authTimeout

/-- Modelled from the spec: the worker of the device polling loop. One
attempt is made every `interval` seconds; `budget` is the time remaining
before the `expires_in` deadline, and `attempts` counts the attempts
already made. Polling stops, expiring, once the next attempt would
exceed the deadline; a 200 response stops polling immediately with the
grant. Returns the terminal outcome and the total attempt count. -/
def pollAux (responder : Nat → Response) (interval : Nat) (budget : Nat) (attempts : Nat) :
    PollOutcome × Nat :=
  if h : 0 < interval ∧ interval ≤ budget then
    if (responder attempts).status = 200 then
      (.authorized (responder attempts).body, attempts + 1)
    else pollAux responder interval (budget - interval) (attempts + 1)
  else (.authTimeout, attempts)
termination_by budget
decreasing_by omega

/-- Modelled from the spec: `pollForToken` (§4.3) — poll every
`interval` seconds until authorized, bounded by the `expiresIn`
deadline measured from issuance of the device code. The response to
the k-th attempt is `responder k`. -/
def pollForToken (responder : Nat → Response) (interval : Nat) (expiresIn : Nat) :
    PollOutcome × Nat :=
  pollAux responder interval expiresIn 0

/-- Modelled from the spec: steps 3 and 4 of the ProvisioningOrchestrator
(§4.4) — run `createChannelMenus`, and unless it halted the sequence,
run `issueStorefrontToken`; collect the issued requests and logged
warnings. -/
def menusThenStorefrontToken (h : Https) (t : Transport) (channelId : Int) :
    List Request × List String :=
  let r1 := h.createChannelMenus t channelId
  if r1.outcome.halts then (r1.requests, r1.warnings)
  else
    let r2 := h.storefrontToken t
    (r1.requests ++ r2.requests, r1.warnings ++ r2.warnings)

/-! ### Shared helper lemmas and concrete fixtures -/

/-- Unfolding lemma: a complete api configuration issues the built request. -/
theorem api_done (h : Https) (t : Transport) (p : String) (o : RequestInit)
    (hc : ¬(h.bigCommerceApiUrl = "" ∨ h.storeHash = "" ∨ h.accessToken = "")) :
    h.api t p o = .done (h.apiRequest p o) (t (h.apiRequest p o)) := by
  unfold Https.api
  rw [if_neg hc]

/-- Unfolding lemma: a complete sample-data configuration issues the built request. -/
theorem sampleDataApi_done (h : Https) (t : Transport) (p : String) (o : RequestInit)
    (hc : ¬(h.sampleDataApiUrl = "" ∨ h.storeHash = "" ∨ h.accessToken = "")) :
    h.sampleDataApi t p o = .done (h.sampleDataApiRequest p o) (t (h.sampleDataApiRequest p o)) := by
  unfold Https.sampleDataApi
  rw [if_neg hc]

/-- Unfolding lemma: a present auth URL issues the built request. -/
theorem auth_done (h : Https) (t : Transport) (p : String) (o : RequestInit)
    (hc : ¬h.bigCommerceAuthUrl = "") :
    h.auth t p o = .done (h.authRequest p o) (t (h.authRequest p o)) := by
  unfold Https.auth
  rw [if_neg hc]

/-- A fully populated configuration used by the concrete witnesses. -/
def cfgFull : HttpsConfig where
  bigCommerceApiUrl := some "https://api.example.com"
  bigCommerceAuthUrl := some "https://login.example.com"
  sampleDataApiUrl := some "https://sample.example.com"
  storeHash := some "abc123"
  accessToken := some "tok-1"

/-- The client built from `cfgFull`. -/
def hFull : Https := Https.ofConfig cfgFull

/-- A transport answering 200 OK with an empty object body. -/
def tOk : Transport := fun _ => ⟨200, "OK", .obj []⟩

/-- A transport answering 403 Forbidden with an empty object body. -/
def t403 : Transport := fun _ => ⟨403, "Forbidden", .obj []⟩

/-- A transport answering 500 Internal Server Error. -/
def t500 : Transport := fun _ => ⟨500, "Internal Server Error", .obj []⟩

/-! ### C1 -/

/-- C1: a call to `Https.api`, `Https.auth`, or `Https.sampleDataApi`
whose required credential subset is incomplete (api requires
`bigCommerceApiUrl`, `storeHash`, `accessToken`; sampleDataApi requires
`sampleDataApiUrl`, `storeHash`, `accessToken`; auth requires
`bigCommerceAuthUrl`) fails with the thrown configuration error before
any network request is issued: the result is the `config` error,
uniformly in the transport `t`, and the list of issued requests is empty. -/
theorem claim_C1_fail_fast_config_error (h : Https) (t : Transport) (path : String)
    (opts : RequestInit) :
    (h.bigCommerceApiUrl = "" ∨ h.storeHash = "" ∨ h.accessToken = "" →
      h.api t path opts =
        .config "bigCommerceApiUrl, storeHash, and accessToken are required to make API requests" ∧
      (h.api t path opts).requests = []) ∧
    (h.sampleDataApiUrl = "" ∨ h.storeHash = "" ∨ h.accessToken = "" →
      h.sampleDataApi t path opts =
        .config "sampleDataApiUrl, storeHash, and accessToken are required to make API requests" ∧
      (h.sampleDataApi t path opts).requests = []) ∧
    (h.bigCommerceAuthUrl = "" →
      h.auth t path opts = .config "bigCommerceAuthUrl is required to make API requests" ∧
      (h.auth t path opts).requests = []) := by
  refine ⟨fun hm => ?_, fun hm => ?_, fun hm => ?_⟩
  · unfold Https.api
    rw [if_pos hm]
    exact ⟨rfl, rfl⟩
  · unfold Https.sampleDataApi
    rw [if_pos hm]
    exact ⟨rfl, rfl⟩
  · unfold Https.auth
    rw [if_pos hm]
    exact ⟨rfl, rfl⟩

/-- C1 witness: the empty configuration makes each of the three calls
fail with the configuration error and issue no request. -/
theorem claim_C1_fail_fast_config_error_witness :
    (Https.ofConfig {}).api tOk "/v2/store" {} =
      .config "bigCommerceApiUrl, storeHash, and accessToken are required to make API requests" ∧
    ((Https.ofConfig {}).api tOk "/v2/store" {}).requests = [] ∧
    (Https.ofConfig {}).sampleDataApi tOk "/v3/channels/catalyst" {} =
      .config "sampleDataApiUrl, storeHash, and accessToken are required to make API requests" ∧
    ((Https.ofConfig {}).sampleDataApi tOk "/v3/channels/catalyst" {}).requests = [] ∧
    (Https.ofConfig {}).auth tOk "/device/token" {} =
      .config "bigCommerceAuthUrl is required to make API requests" ∧
    ((Https.ofConfig {}).auth tOk "/device/token" {}).requests = [] := by
  have h1 := claim_C1_fail_fast_config_error (Https.ofConfig {}) tOk "/v2/store" {}
  have h2 := claim_C1_fail_fast_config_error (Https.ofConfig {}) tOk "/v3/channels/catalyst" {}
  have h3 := claim_C1_fail_fast_config_error (Https.ofConfig {}) tOk "/device/token" {}
  obtain ⟨ha, hb⟩ := h1.1 (Or.inl rfl)
  obtain ⟨hc, hd⟩ := h2.2.1 (Or.inl rfl)
  obtain ⟨he, hf⟩ := h3.2.2 rfl
  exact ⟨ha, hb, hc, hd, he, hf⟩

/-! ### C8 -/

/-- C8: for every path `p`, `Https.api p` and `Https.sampleDataApi p`
request exactly the URL formed by concatenating their base URL, the
segment `/stores/` followed by the store handle, and `p`, while
`Https.auth p` requests exactly its base URL concatenated with `p`
(whenever the call reaches the network at all). -/
theorem claim_C8_url_concatenation (h : Https) (t : Transport) (p : String)
    (opts : RequestInit) :
    (¬(h.bigCommerceApiUrl = "" ∨ h.storeHash = "" ∨ h.accessToken = "") →
      (h.api t p opts).requests.map Request.url =
        [h.bigCommerceApiUrl ++ "/stores/" ++ h.storeHash ++ p]) ∧
    (¬(h.sampleDataApiUrl = "" ∨ h.storeHash = "" ∨ h.accessToken = "") →
      (h.sampleDataApi t p opts).requests.map Request.url =
        [h.sampleDataApiUrl ++ "/stores/" ++ h.storeHash ++ p]) ∧
    (¬h.bigCommerceAuthUrl = "" →
      (h.auth t p opts).requests.map Request.url = [h.bigCommerceAuthUrl ++ p]) := by
  refine ⟨fun hc => ?_, fun hc => ?_, fun hc => ?_⟩
  · rw [api_done h t p opts hc]
    rfl
  · rw [sampleDataApi_done h t p opts hc]
    rfl
  · rw [auth_done h t p opts hc]
    rfl

/-- C8 witness: the concrete URLs produced by the full configuration. -/
theorem claim_C8_url_concatenation_witness :
    (hFull.api tOk "/v2/store" {}).requests.map Request.url =
      ["https://api.example.com/stores/abc123/v2/store"] ∧
    (hFull.sampleDataApi tOk "/v3/channels/catalyst" {}).requests.map Request.url =
      ["https://sample.example.com/stores/abc123/v3/channels/catalyst"] ∧
    (hFull.auth tOk "/device/token" {}).requests.map Request.url =
      ["https://login.example.com/device/token"] := by
  have h1 := claim_C8_url_concatenation hFull tOk "/v2/store" {}
  have h2 := claim_C8_url_concatenation hFull tOk "/v3/channels/catalyst" {}
  have h3 := claim_C8_url_concatenation hFull tOk "/device/token" {}
  refine ⟨?_, ?_, ?_⟩
  · rw [h1.1 (by decide)]
    rfl
  · rw [h2.2.1 (by decide)]
    rfl
  · rw [h3.2.2 (by decide)]
    rfl

/-! ### C9 -/

/-- A configuration with an empty access token for the management API. -/
def cfgApiEmptyToken (u s : String) : HttpsConfig :=
  { bigCommerceApiUrl := some u, storeHash := some s, accessToken := some "" }

/-- A configuration with an empty access token for the sample-data API. -/
def cfgSampleEmptyToken (u s : String) : HttpsConfig :=
  { sampleDataApiUrl := some u, storeHash := some s, accessToken := some "" }

/-- C9: every constructed `Https` instance stores all five credential
fields as strings (each the `?? ''` default of the optional input), two
configurations agreeing after that default produce identical instances
(so an empty string behaves exactly as an omitted field everywhere), and
constructing with an empty string for a required credential makes the
corresponding call throw the configuration error before any fetch. -/
theorem claim_C9_empty_string_equals_omitted :
    (∀ c : HttpsConfig,
      (Https.ofConfig c).bigCommerceApiUrl = c.bigCommerceApiUrl.getD "" ∧
      (Https.ofConfig c).bigCommerceAuthUrl = c.bigCommerceAuthUrl.getD "" ∧
      (Https.ofConfig c).sampleDataApiUrl = c.sampleDataApiUrl.getD "" ∧
      (Https.ofConfig c).storeHash = c.storeHash.getD "" ∧
      (Https.ofConfig c).accessToken = c.accessToken.getD "") ∧
    (∀ c c' : HttpsConfig,
      c.bigCommerceApiUrl.getD "" = c'.bigCommerceApiUrl.getD "" →
      c.bigCommerceAuthUrl.getD "" = c'.bigCommerceAuthUrl.getD "" →
      c.sampleDataApiUrl.getD "" = c'.sampleDataApiUrl.getD "" →
      c.storeHash.getD "" = c'.storeHash.getD "" →
      c.accessToken.getD "" = c'.accessToken.getD "" →
      Https.ofConfig c = Https.ofConfig c') ∧
    (∀ (u s : String) (t : Transport) (p : String) (o : RequestInit),
      (Https.ofConfig (cfgApiEmptyToken u s)).api t p o =
        .config "bigCommerceApiUrl, storeHash, and accessToken are required to make API requests" ∧
      (Https.ofConfig (cfgSampleEmptyToken u s)).sampleDataApi t p o =
        .config "sampleDataApiUrl, storeHash, and accessToken are required to make API requests" ∧
      (Https.ofConfig { bigCommerceAuthUrl := some "" }).auth t p o =
        .config "bigCommerceAuthUrl is required to make API requests") := by
  refine ⟨fun c => ⟨rfl, rfl, rfl, rfl, rfl⟩, ?_, ?_⟩
  · intro c c' h1 h2 h3 h4 h5
    unfold Https.ofConfig
    rw [h1, h2, h3, h4, h5]
  · intro u s t p o
    have h1 : (Https.ofConfig (cfgApiEmptyToken u s)).accessToken = "" := rfl
    have h2 : (Https.ofConfig (cfgSampleEmptyToken u s)).accessToken = "" := rfl
    have h3 : (Https.ofConfig { bigCommerceAuthUrl := some "" }).bigCommerceAuthUrl = "" := rfl
    refine ⟨?_, ?_, ?_⟩
    · unfold Https.api
      rw [if_pos (Or.inr (Or.inr h1))]
    · unfold Https.sampleDataApi
      rw [if_pos (Or.inr (Or.inr h2))]
    · unfold Https.auth
      rw [if_pos h3]

/-- C9 witness: an empty-string credential and an omitted credential
construct the same instance, and the empty-string credential makes the
call throw before any fetch. -/
theorem claim_C9_empty_string_equals_omitted_witness :
    Https.ofConfig { accessToken := some "" } = Https.ofConfig {} ∧
    (Https.ofConfig (cfgApiEmptyToken "https://api.example.com" "abc123")).api
        tOk "/v2/store" {} =
      .config "bigCommerceApiUrl, storeHash, and accessToken are required to make API requests" ∧
    (Https.ofConfig { bigCommerceAuthUrl := some "" }).auth tOk "/device/token" {} =
      .config "bigCommerceAuthUrl is required to make API requests" := by
  have hth := claim_C9_empty_string_equals_omitted
  refine ⟨hth.2.1 { accessToken := some "" } {} rfl rfl rfl rfl rfl, ?_, ?_⟩
  · exact (hth.2.2 "https://api.example.com" "abc123" tOk "/v2/store" {}).1
  · exact (hth.2.2 "" "" tOk "/device/token" {}).2.2

/-! ### C10 -/

/-- Appending fixed assignments after the caller's cannot lose them:
if the later block binds `k`, the lookup over the whole literal returns
the later block's value. -/
theorem jsGet_append_of_eq (xs ys : Headers) (k v : String)
    (hk : jsGet ys k = some v) : jsGet (xs ++ ys) k = some v := by
  unfold jsGet at hk ⊢
  rw [List.reverse_append, List.find?_append]
  cases hfind : ys.reverse.find? (fun p => p.1 == k) with
  | none =>
    rw [hfind] at hk
    simp at hk
  | some w =>
    rw [hfind] at hk
    simpa using hk

/-- C10: for every caller-supplied `opts.headers`, the request built by
`auth`, `api`, or `sampleDataApi` always carries
`Accept: application/json` and the fixed `User-Agent` (plus
`X-Auth-Token` with the access token for api and sampleDataApi, and
`Content-Type: application/json` for auth and sampleDataApi): the
caller's headers are spread before the fixed ones, so they can never
override or remove them. -/
theorem claim_C10_fixed_headers_unoverridable (h : Https) (p : String) (opts : RequestInit) :
    (jsGet (h.authRequest p opts).headers "Accept" = some "application/json" ∧
     jsGet (h.authRequest p opts).headers "Content-Type" = some "application/json" ∧
     jsGet (h.authRequest p opts).headers "User-Agent" = some h.userAgent) ∧
    (jsGet (h.apiRequest p opts).headers "Accept" = some "application/json" ∧
     jsGet (h.apiRequest p opts).headers "X-Auth-Token" = some h.accessToken ∧
     jsGet (h.apiRequest p opts).headers "User-Agent" = some h.userAgent) ∧
    (jsGet (h.sampleDataApiRequest p opts).headers "Accept" = some "application/json" ∧
     jsGet (h.sampleDataApiRequest p opts).headers "Content-Type" = some "application/json" ∧
     jsGet (h.sampleDataApiRequest p opts).headers "X-Auth-Token" = some h.accessToken ∧
     jsGet (h.sampleDataApiRequest p opts).headers "User-Agent" = some h.userAgent) :=
  ⟨⟨jsGet_append_of_eq _ _ _ _ rfl, jsGet_append_of_eq _ _ _ _ rfl,
    jsGet_append_of_eq _ _ _ _ rfl⟩,
   ⟨jsGet_append_of_eq _ _ _ _ rfl, jsGet_append_of_eq _ _ _ _ rfl,
    jsGet_append_of_eq _ _ _ _ rfl⟩,
   ⟨jsGet_append_of_eq _ _ _ _ rfl, jsGet_append_of_eq _ _ _ _ rfl,
    jsGet_append_of_eq _ _ _ _ rfl, jsGet_append_of_eq _ _ _ _ rfl⟩⟩

/-! ### C4 -/

/-- C4: each poll attempt made by `Https.checkDeviceCode` issues exactly
one request; if the HTTP status is exactly 200 the body is validated
against the token-grant schema (`access_token`, `store_hash`, `context`,
`api_uri`) and returned as the grant (or a validation error if it does
not conform); for every other status the attempt fails with the
recoverable `Device code not yet verified` pending condition, not a
terminal failure. -/
theorem claim_C4_checkDeviceCode_status_dichotomy (h : Https) (t : Transport) (dc : String)
    (hc : ¬h.bigCommerceAuthUrl = "") :
    (h.checkDeviceCode t dc).requests = [h.checkDeviceCodeRequest dc] ∧
    ((t (h.checkDeviceCodeRequest dc)).status = 200 →
      (h.checkDeviceCode t dc).outcome =
        match parseTokenGrant (t (h.checkDeviceCodeRequest dc)).body with
        | .ok g => .ok g
        | .error m => .validationError m) ∧
    ((t (h.checkDeviceCodeRequest dc)).status ≠ 200 →
      (h.checkDeviceCode t dc).outcome = .authPending "Device code not yet verified") := by
  have hd := auth_done h t "/device/token" (checkDeviceCodeInit dc) hc
  unfold Https.checkDeviceCodeRequest
  refine ⟨?_, fun h200 => ?_, fun hne => ?_⟩
  · simp only [Https.checkDeviceCode, hd]
    by_cases hs : (t (h.authRequest "/device/token" (checkDeviceCodeInit dc))).status = 200
    · rw [if_pos hs]
      cases hp : parseTokenGrant (t (h.authRequest "/device/token" (checkDeviceCodeInit dc))).body <;>
        rfl
    · rw [if_neg hs]
  · simp only [Https.checkDeviceCode, hd]
    rw [if_pos h200]
    cases hp : parseTokenGrant (t (h.authRequest "/device/token" (checkDeviceCodeInit dc))).body <;>
      rfl
  · simp only [Https.checkDeviceCode, hd]
    rw [if_neg hne]

/-- A client configured only for the device OAuth flow. -/
def hAuth : Https := Https.ofConfig { bigCommerceAuthUrl := some "https://login.example.com" }

/-- A valid token-grant body. -/
def grantBody : Json := .obj
  [("access_token", .str "at-1"), ("store_hash", .str "abc123"),
   ("context", .str "stores/abc123"), ("api_uri", .str "https://api.bigcommerce.com")]

/-- A transport answering 200 with a valid token grant. -/
def tGrant : Transport := fun _ => ⟨200, "OK", grantBody⟩

/-- A transport answering 428, the pending status of the device flow. -/
def tPending : Transport := fun _ => ⟨428, "Precondition Required", .obj []⟩

/-- C4 witness: a 200 response yields the validated grant; a 428
response yields the recoverable pending condition. -/
theorem claim_C4_checkDeviceCode_status_dichotomy_witness :
    (hAuth.checkDeviceCode tGrant "dev-1").outcome =
      .ok ⟨"at-1", "abc123", "stores/abc123", "https://api.bigcommerce.com"⟩ ∧
    (hAuth.checkDeviceCode tGrant "dev-1").requests = [hAuth.checkDeviceCodeRequest "dev-1"] ∧
    (hAuth.checkDeviceCode tPending "dev-1").outcome =
      .authPending "Device code not yet verified" := by
  have h1 := claim_C4_checkDeviceCode_status_dichotomy hAuth tGrant "dev-1" (by decide)
  have h2 := claim_C4_checkDeviceCode_status_dichotomy hAuth tPending "dev-1" (by decide)
  refine ⟨?_, h1.1, h2.2.2 (by decide)⟩
  rw [h1.2.1 rfl]
  rfl

/-! ### C7 -/

/-- C7: `Https.getDeviceCode` issues exactly one POST to
`/device/token` whose body is the fixed hardcoded scope list joined by
single spaces together with the fixed client identifier; on a 2xx
response it validates the body against the device-code schema and
returns a `DeviceCode` carrying exactly the validated field values; on
non-2xx it is a terminal fatal failure (`process.exit(1)`). -/
theorem claim_C7_getDeviceCode_single_post (h : Https) (t : Transport)
    (hc : ¬h.bigCommerceAuthUrl = "") :
    (h.getDeviceCode t).requests = [h.deviceCodeRequest] ∧
    h.deviceCodeRequest.method = "POST" ∧
    h.deviceCodeRequest.url = h.bigCommerceAuthUrl ++ "/device/token" ∧
    h.deviceCodeRequest.body = some (.obj
      [("scopes", .str "store_channel_settings store_sites store_storefront_api store_v2_content store_v2_information store_v2_products store_cart"),
       ("client_id", .str "acse0vvawm9r1n0evag4b8e1ea1fo90")]) ∧
    ((t h.deviceCodeRequest).ok = true →
      (h.getDeviceCode t).outcome =
        match parseDeviceCode (t h.deviceCodeRequest).body with
        | .ok v => .ok v
        | .error m => .validationError m) ∧
    ((t h.deviceCodeRequest).ok = false →
      (h.getDeviceCode t).outcome = .exited 1
        ("\nPOST /device/token failed: " ++ toString (t h.deviceCodeRequest).status ++ " " ++
          (t h.deviceCodeRequest).statusText ++ "\n")) := by
  have hd := auth_done h t "/device/token" deviceCodeInit hc
  unfold Https.deviceCodeRequest
  refine ⟨?_, rfl, rfl, rfl, fun hok => ?_, fun hbad => ?_⟩
  · simp only [Https.getDeviceCode, hd]
    by_cases hs : (t (h.authRequest "/device/token" deviceCodeInit)).ok = true
    · rw [if_pos hs]
      cases hp : parseDeviceCode (t (h.authRequest "/device/token" deviceCodeInit)).body <;> rfl
    · rw [if_neg hs]
  · simp only [Https.getDeviceCode, hd]
    rw [if_pos hok]
    cases hp : parseDeviceCode (t (h.authRequest "/device/token" deviceCodeInit)).body <;> rfl
  · simp only [Https.getDeviceCode, hd]
    rw [if_neg (by simp [hbad])]

/-- The device-code body of the design document's scenario. -/
def deviceCodeScenarioBody : Json := .obj
  [("device_code", .str "abc"), ("user_code", .str "XYZ"),
   ("verification_uri", .str "https://x"), ("expires_in", .num 60),
   ("interval", .num 5)]

/-- A transport answering 200 with the scenario device-code body. -/
def tDeviceCode : Transport := fun _ => ⟨200, "OK", deviceCodeScenarioBody⟩

/-- C7 witness: the scenario response yields a `DeviceCode` with exactly
those fields, from exactly one issued request. -/
theorem claim_C7_getDeviceCode_single_post_witness :
    (hAuth.getDeviceCode tDeviceCode).outcome = .ok ⟨"abc", "XYZ", "https://x", 60, 5⟩ ∧
    (hAuth.getDeviceCode tDeviceCode).requests = [hAuth.deviceCodeRequest] ∧
    (hAuth.getDeviceCode t500).outcome =
      .exited 1 "\nPOST /device/token failed: 500 Internal Server Error\n" := by
  have h1 := claim_C7_getDeviceCode_single_post hAuth tDeviceCode (by decide)
  have h2 := claim_C7_getDeviceCode_single_post hAuth t500 (by decide)
  refine ⟨?_, h1.1, ?_⟩
  · rw [h1.2.2.2.2.1 rfl]
    rfl
  · rw [h2.2.2.2.2.2 rfl]
    rfl

/-! ### C6 -/

/-- Validation of a created-channel body whose `data.name` is present
and empty always fails (the `min(1)` lower bound). -/
theorem parseChannelCreate_error_of_empty_name (j : Json)
    (hname : (j.getField "data").bind (fun d => (d.getField "name").bind Json.asString) =
      some "") :
    ∃ m, parseChannelCreate j = .error m := by
  cases hd : j.getField "data" with
  | none =>
    rw [hd] at hname
    simp at hname
  | some d =>
    rw [hd] at hname
    simp only [Option.some_bind] at hname
    have hdf : reqField j "data" = .ok d := by
      unfold reqField
      rw [hd]
    have hn : reqStr d "name" = .ok "" := by
      unfold reqStr
      rw [hname]
    cases hi : reqNum d "id" with
    | error m =>
      refine ⟨m, ?_⟩
      simp [parseChannelCreate, hdf, hi]
    | ok i =>
      refine ⟨"data.name: string must contain at least 1 character", ?_⟩
      simp [parseChannelCreate, hdf, hi, hn]

/-- C6: `Https.createChannel name` sends a POST to
`/v3/channels/catalyst` (under the sample-data base URL and store
segment) with body `{name, tokenType: 'normal'}`; on a 2xx response it
validates the payload as `{data: {id, name (non-empty), storefront_api_token}}`
and returns it, and any 2xx response whose `data.name` is the empty
string fails with a validation error. -/
theorem claim_C6_createChannel_contract (h : Https) (t : Transport) (cname : String)
    (hc : ¬(h.sampleDataApiUrl = "" ∨ h.storeHash = "" ∨ h.accessToken = "")) :
    (h.createChannel t cname).requests = [h.createChannelRequest cname] ∧
    (h.createChannelRequest cname).method = "POST" ∧
    (h.createChannelRequest cname).url =
      h.sampleDataApiUrl ++ "/stores/" ++ h.storeHash ++ "/v3/channels/catalyst" ∧
    (h.createChannelRequest cname).body =
      some (.obj [("name", .str cname), ("tokenType", .str "normal")]) ∧
    ((t (h.createChannelRequest cname)).ok = true →
      (h.createChannel t cname).outcome =
        match parseChannelCreate (t (h.createChannelRequest cname)).body with
        | .ok v => .ok v
        | .error m => .validationError m) ∧
    ((t (h.createChannelRequest cname)).ok = true →
      ((t (h.createChannelRequest cname)).body.getField "data").bind
          (fun d => (d.getField "name").bind Json.asString) = some "" →
      ((h.createChannel t cname).outcome).isValidationError = true) := by
  have hd := sampleDataApi_done h t "/v3/channels/catalyst" (createChannelInit cname) hc
  unfold Https.createChannelRequest
  have hmain : (t (h.sampleDataApiRequest "/v3/channels/catalyst" (createChannelInit cname))).ok =
      true →
      (h.createChannel t cname).outcome =
        match parseChannelCreate
            (t (h.sampleDataApiRequest "/v3/channels/catalyst" (createChannelInit cname))).body with
        | .ok v => .ok v
        | .error m => .validationError m := by
    intro hok
    simp only [Https.createChannel, hd]
    rw [if_pos hok]
    cases hp : parseChannelCreate
        (t (h.sampleDataApiRequest "/v3/channels/catalyst" (createChannelInit cname))).body <;> rfl
  refine ⟨?_, rfl, rfl, rfl, hmain, fun hok hname => ?_⟩
  · simp only [Https.createChannel, hd]
    by_cases hs : (t (h.sampleDataApiRequest "/v3/channels/catalyst" (createChannelInit cname))).ok =
        true
    · rw [if_pos hs]
      cases hp : parseChannelCreate
          (t (h.sampleDataApiRequest "/v3/channels/catalyst" (createChannelInit cname))).body <;> rfl
    · rw [if_neg hs]
  · rw [hmain hok]
    obtain ⟨m, hm⟩ := parseChannelCreate_error_of_empty_name _ hname
    rw [hm]
    rfl

/-- A client configured for the sample-data API. -/
def hSample : Https := Https.ofConfig
  { sampleDataApiUrl := some "https://sample.example.com", storeHash := some "abc123",
    accessToken := some "tok-1" }

/-- The created-channel body of the design document's scenario. -/
def createdChannelBody : Json := .obj
  [("data", .obj
    [("id", .num 7), ("name", .str "demo"), ("storefront_api_token", .str "tok")])]

/-- The created-channel scenario body with an empty `name`. -/
def createdChannelEmptyNameBody : Json := .obj
  [("data", .obj
    [("id", .num 7), ("name", .str ""), ("storefront_api_token", .str "tok")])]

/-- A transport answering 200 with the created-channel scenario body. -/
def tChannelCreated : Transport := fun _ => ⟨200, "OK", createdChannelBody⟩

/-- A transport answering 200 with an empty channel name. -/
def tChannelEmptyName : Transport := fun _ => ⟨200, "OK", createdChannelEmptyNameBody⟩

/-- C6 witness: the scenario response yields id 7 and token `tok`; the
empty-name response yields a validation error; the issued request is the
documented POST. -/
theorem claim_C6_createChannel_contract_witness :
    (hSample.createChannel tChannelCreated "demo").outcome = .ok ⟨⟨7, "demo", "tok"⟩⟩ ∧
    (hSample.createChannel tChannelCreated "demo").requests =
      [hSample.createChannelRequest "demo"] ∧
    ((hSample.createChannel tChannelEmptyName "demo").outcome).isValidationError = true := by
  have h1 := claim_C6_createChannel_contract hSample tChannelCreated "demo" (by decide)
  have h2 := claim_C6_createChannel_contract hSample tChannelEmptyName "demo" (by decide)
  refine ⟨?_, h1.1, h2.2.2.2.2.2 rfl rfl⟩
  rw [h1.2.2.2.2.1 rfl]
  rfl

/-! ### C2 -/

/-- When every attempt is answered with a non-200 (pending) status, the
polling worker expires after exactly `budget / interval` further
attempts. -/
theorem pollAux_pending (responder : Nat → Response) (interval : Nat)
    (hpending : ∀ k, (responder k).status ≠ 200) :
    ∀ budget attempts, pollAux responder interval budget attempts =
      (.authTimeout, attempts + budget / interval) := by
  intro budget
  induction budget using Nat.strong_induction_on with
  | _ budget ih =>
    intro attempts
    rw [pollAux]
    by_cases hc : 0 < interval ∧ interval ≤ budget
    · rw [dif_pos hc, if_neg (hpending attempts),
        ih (budget - interval) (by omega) (attempts + 1),
        Nat.div_eq_sub_div hc.1 hc.2]
      congr 1
      omega
    · rw [dif_neg hc]
      have hz : budget / interval = 0 := by
        rcases Nat.eq_zero_or_pos interval with h0 | hpos
        · simp [h0]
        · exact Nat.div_eq_of_lt (by omega)
      rw [hz, Nat.add_zero]

/-- C2: for every poll interval `I > 0` and expiry `E`, if every poll
attempt receives a pending (non-200) response, the polling loop performs
exactly `E / I` attempts — at most `⌈E/I⌉` — and terminates in the
expired state with the auth-timeout failure, and the total elapsed time
of its attempts never exceeds the `E`-second deadline. -/
theorem claim_C2_poll_bounded_by_deadline (responder : Nat → Response) (I E : Nat)
    (hI : 0 < I) (hpending : ∀ k, (responder k).status ≠ 200) :
    pollForToken responder I E = (.authTimeout, E / I) ∧
    E / I ≤ (E + I - 1) / I ∧
    (E / I) * I ≤ E := by
  refine ⟨?_, Nat.div_le_div_right (by omega), Nat.div_mul_le_self E I⟩
  rw [pollForToken, pollAux_pending responder I hpending E 0]
  rw [Nat.zero_add]

/-- A responder that always answers the pending status 428. -/
def pendingResponder : Nat → Response := fun _ => ⟨428, "Precondition Required", .obj []⟩

/-- C2 witness: with interval 5 and expiry 60 against an always-pending
responder, the loop stops expired after 12 = ⌈60/5⌉ attempts, within the
deadline. -/
theorem claim_C2_poll_bounded_by_deadline_witness :
    pollForToken pendingResponder 5 60 = (.authTimeout, 12) ∧ 12 * 5 ≤ 60 := by
  have hth := claim_C2_poll_bounded_by_deadline pendingResponder 5 60 (by decide)
    (fun k => by simp [pendingResponder])
  refine ⟨?_, by decide⟩
  have h1 := hth.1
  norm_num at h1
  exact h1

/-! ### C5 -/

/-- C5: on every non-2xx response, `createChannelMenus` returns normally
with exactly one warning — the message carrying the remediation link —
and never halts; run inside the orchestrator sequence, the subsequent
`storefrontToken` request is still issued. Moreover it is the only
non-fatal step: every other provisioning step exits the process on a
non-2xx response. -/
theorem claim_C5_createChannelMenus_only_non_fatal (h : Https) (t : Transport) (cid : Int)
    (q cname : String)
    (hapi : ¬(h.bigCommerceApiUrl = "" ∨ h.storeHash = "" ∨ h.accessToken = ""))
    (hsample : ¬(h.sampleDataApiUrl = "" ∨ h.storeHash = "" ∨ h.accessToken = "")) :
    ((t (h.channelMenusRequest cid)).ok = false →
      (h.createChannelMenus t cid).outcome = .ok () ∧
      (h.createChannelMenus t cid).warnings =
        [channelMenusWarning (t (h.channelMenusRequest cid)).status
          (t (h.channelMenusRequest cid)).statusText] ∧
      (menusThenStorefrontToken h t cid).1 =
        [h.channelMenusRequest cid, h.storefrontTokenRequest] ∧
      (menusThenStorefrontToken h t cid).2 =
        [channelMenusWarning (t (h.channelMenusRequest cid)).status
          (t (h.channelMenusRequest cid)).statusText]) ∧
    (h.createChannelMenus t cid).outcome.halts = false ∧
    ((t h.storeInfoRequest).ok = false → (h.storeInformation t).outcome.isExited = true) ∧
    ((t (h.channelsRequest q)).ok = false → (h.channels t q).outcome.isExited = true) ∧
    ((t h.storefrontTokenRequest).ok = false → (h.storefrontToken t).outcome.isExited = true) ∧
    ((t h.eligibilityRequest).ok = false → (h.checkEligibility t).outcome.isExited = true) ∧
    ((t (h.createChannelRequest cname)).ok = false →
      (h.createChannel t cname).outcome.isExited = true) := by
  have hm := api_done h t ("/v3/channels/" ++ toString cid ++ "/channel-menus") channelMenusInit hapi
  have htk := api_done h t "/v3/storefront/api-token" storefrontTokenInit hapi
  have hmenus : ∀ hb : (t (h.channelMenusRequest cid)).ok = false,
      h.createChannelMenus t cid =
        ⟨.ok (), [h.channelMenusRequest cid],
          [channelMenusWarning (t (h.channelMenusRequest cid)).status
            (t (h.channelMenusRequest cid)).statusText]⟩ := by
    intro hb
    unfold Https.channelMenusRequest at hb ⊢
    simp only [Https.createChannelMenus, hm]
    rw [if_neg (by simp [hb])]
  have htoken : (h.storefrontToken t).requests = [h.storefrontTokenRequest] ∧
      (h.storefrontToken t).warnings = [] := by
    unfold Https.storefrontTokenRequest
    simp only [Https.storefrontToken, htk]
    by_cases hs : (t (h.apiRequest "/v3/storefront/api-token" storefrontTokenInit)).ok = true
    · rw [if_pos hs]
      cases hp : parseStorefrontToken
          (t (h.apiRequest "/v3/storefront/api-token" storefrontTokenInit)).body <;>
        exact ⟨rfl, rfl⟩
    · rw [if_neg hs]
      exact ⟨rfl, rfl⟩
  refine ⟨fun hb => ?_, ?_, fun hb => ?_, fun hb => ?_, fun hb => ?_, fun hb => ?_,
    fun hb => ?_⟩
  · rw [hmenus hb]
    refine ⟨rfl, rfl, ?_, ?_⟩
    · unfold menusThenStorefrontToken
      rw [hmenus hb]
      show ([h.channelMenusRequest cid] ++ (h.storefrontToken t).requests, _).1 = _
      rw [htoken.1]
      rfl
    · unfold menusThenStorefrontToken
      rw [hmenus hb]
      show (_, [_] ++ (h.storefrontToken t).warnings).2 = _
      rw [htoken.2]
      rfl
  · simp only [Https.createChannelMenus, hm]
    by_cases hs : (t (h.apiRequest ("/v3/channels/" ++ toString cid ++ "/channel-menus")
        channelMenusInit)).ok = true
    · rw [if_pos hs]
      rfl
    · rw [if_neg hs]
      rfl
  · have hd := api_done h t "/v2/store" {} hapi
    unfold Https.storeInfoRequest at hb
    simp only [Https.storeInformation, hd]
    rw [if_neg (by simp [hb])]
    rfl
  · have hd := api_done h t ("/v3/channels" ++ q) {} hapi
    unfold Https.channelsRequest at hb
    simp only [Https.channels, hd]
    rw [if_neg (by simp [hb])]
    rfl
  · unfold Https.storefrontTokenRequest at hb
    simp only [Https.storefrontToken, htk]
    rw [if_neg (by simp [hb])]
    rfl
  · have hd := sampleDataApi_done h t "/v3/channels/catalyst/eligibility"
      { method := some "GET" } hsample
    unfold Https.eligibilityRequest at hb
    simp only [Https.checkEligibility, hd]
    rw [if_neg (by simp [hb])]
    rfl
  · have hd := sampleDataApi_done h t "/v3/channels/catalyst" (createChannelInit cname) hsample
    unfold Https.createChannelRequest at hb
    simp only [Https.createChannel, hd]
    rw [if_neg (by simp [hb])]
    rfl

/-- C5 witness: `createChannelMenus 42` against a transport returning
HTTP 500 records exactly one warning with the remediation link, does not
halt, and the subsequent storefront-token request is still issued. -/
theorem claim_C5_createChannelMenus_only_non_fatal_witness :
    (hFull.createChannelMenus t500 42).outcome = .ok () ∧
    (hFull.createChannelMenus t500 42).warnings =
      ["\nFailed to create channel menus: 500 Internal Server Error. You may want to create these later: https://developer.bigcommerce.com/docs/rest-management/channels/menus#create-channel-menus\n"] ∧
    (menusThenStorefrontToken hFull t500 42).1 =
      [hFull.channelMenusRequest 42, hFull.storefrontTokenRequest] ∧
    (hFull.storeInformation t500).outcome.isExited = true := by
  have hth := claim_C5_createChannelMenus_only_non_fatal hFull t500 42 "" "demo"
    (by decide) (by decide)
  obtain ⟨hwarn, _, hstore, _⟩ := hth
  obtain ⟨h1, h2, h3, _⟩ := hwarn rfl
  refine ⟨h1, ?_, h3, hstore rfl⟩
  rw [h2]
  rfl

/-! ### C3 -/

/-- C3 counterexample: with a complete configuration and a transport
answering 403 Forbidden, `storeInformation` does not surface an
`HttpError{status, statusText, endpoint}` value to its caller for
classification: the client itself reports the failure and exits the
process, deciding fatality inside the client. -/
theorem claim_C3_counterexample_client_decides :
    ((hFull.storeInformation t403).outcome).isHttpError = false ∧
    (hFull.storeInformation t403).outcome =
      .exited 1 "\nGET /v2/store failed: 403 Forbidden\n" := by
  exact ⟨rfl, rfl⟩

/-- C3 amended: every non-2xx response to a fatal client call is handled
inside the client itself — `storeInformation` and `channels` report a
message naming the endpoint, the status and the status text, and
terminate the process with the non-zero exit code 1 — rather than being
surfaced as an `HttpError` for the caller to classify. -/
theorem claim_C3_amended_exit_with_message (h : Https) (t : Transport) (q : String)
    (hapi : ¬(h.bigCommerceApiUrl = "" ∨ h.storeHash = "" ∨ h.accessToken = "")) :
    ((t h.storeInfoRequest).ok = false →
      (h.storeInformation t).outcome = .exited 1
        ("\nGET /v2/store failed: " ++ toString (t h.storeInfoRequest).status ++ " " ++
          (t h.storeInfoRequest).statusText ++ "\n") ∧
      ((h.storeInformation t).outcome).isHttpError = false) ∧
    ((t (h.channelsRequest q)).ok = false →
      (h.channels t q).outcome = .exited 1
        ("\nGET /v3/channels failed: " ++ toString (t (h.channelsRequest q)).status ++ " " ++
          (t (h.channelsRequest q)).statusText ++ "\n") ∧
      ((h.channels t q).outcome).isHttpError = false) := by
  constructor
  · intro hb
    have hd := api_done h t "/v2/store" {} hapi
    unfold Https.storeInfoRequest at hb ⊢
    simp only [Https.storeInformation, hd]
    rw [if_neg (by simp [hb])]
    exact ⟨rfl, rfl⟩
  · intro hb
    have hd := api_done h t ("/v3/channels" ++ q) {} hapi
    unfold Https.channelsRequest at hb ⊢
    simp only [Https.channels, hd]
    rw [if_neg (by simp [hb])]
    exact ⟨rfl, rfl⟩

/-- C3 amended witness: the concrete 403 response makes both calls exit
with the documented messages. -/
theorem claim_C3_amended_exit_with_message_witness :
    (hFull.storeInformation t403).outcome =
      .exited 1 "\nGET /v2/store failed: 403 Forbidden\n" ∧
    (hFull.channels t403 "").outcome =
      .exited 1 "\nGET /v3/channels failed: 403 Forbidden\n" := by
  have hth := claim_C3_amended_exit_with_message hFull t403 "" (by decide)
  refine ⟨?_, ?_⟩
  · rw [(hth.1 rfl).1]
    rfl
  · rw [(hth.2 rfl).1]
    rfl

end Catalyst
